import Mathlib

/-!
Verification development for the UpDiamShad backend engagement pipeline.

The TypeScript source is shallowly embedded: JavaScript numbers are modelled
as rationals (`ℚ`), `Math.round` as `jsRound` (round half toward positive
infinity), optional fields as `Option ℚ` with the `x || 0` defaulting of the
source written as `Option.getD 0`, and Mongoose documents as Lean structures.
Database-free instance methods become pure functions from state to state.
-/

/-- JS `Math.round`: rounds half toward positive infinity, i.e. `⌊q + 1/2⌋`. -/
def jsRound (q : ℚ) : ℤ := ⌊q + 1/2⌋

/-- JS `String.prototype.toLowerCase` restricted to ASCII, written by
structural recursion over the character list so that it evaluates inside
proofs (the platform keys of this code base are ASCII). -/
def jsToLower (s : String) : String := ⟨s.data.map Char.toLower⟩

/-! ## Snapshot store and delta engine (sparks.service, `calculateDelta`)

`PlatformMetrics` mirrors the TypeScript interface: `totalLikes`,
`totalComments`, `totalViews` are required, the remaining counters optional.
`SnapshotTotals` mirrors the stored `snapshot` sub-document of
`EngagementSnapshot`, where every counter is present. -/

structure PlatformMetrics where
  totalLikes : ℚ
  totalDislikes : Option ℚ
  totalComments : ℚ
  totalViews : ℚ
  totalShares : Option ℚ
  totalSaves : Option ℚ
  totalWatchTime : Option ℚ
  totalImpressions : Option ℚ
  totalReach : Option ℚ
deriving DecidableEq

structure SnapshotTotals where
  totalLikes : ℚ
  totalDislikes : ℚ
  totalComments : ℚ
  totalViews : ℚ
  totalShares : ℚ
  totalSaves : ℚ
  totalWatchTime : ℚ
  totalImpressions : ℚ
  totalReach : ℚ
deriving DecidableEq

structure DeltaMetrics where
  likes : ℚ
  dislikes : ℚ
  comments : ℚ
  views : ℚ
  shares : ℚ
  saves : ℚ
  watchTime : ℚ
  impressions : ℚ
  reach : ℚ
deriving DecidableEq

/-- Embeds `calculateDelta(currentMetrics, previousSnapshot)` of the sparks service:
with no previous snapshot the current totals (optional fields defaulted to 0)
are returned whole; otherwise each field is `max(0, current - previous)`. -/
def calculateDelta (currentMetrics : PlatformMetrics)
    (previousSnapshot : Option SnapshotTotals) : DeltaMetrics :=
  match previousSnapshot with
  | none =>
    { likes := currentMetrics.totalLikes
      dislikes := currentMetrics.totalDislikes.getD 0
      comments := currentMetrics.totalComments
      views := currentMetrics.totalViews
      shares := currentMetrics.totalShares.getD 0
      saves := currentMetrics.totalSaves.getD 0
      watchTime := currentMetrics.totalWatchTime.getD 0
      impressions := currentMetrics.totalImpressions.getD 0
      reach := currentMetrics.totalReach.getD 0 }
  | some prev =>
    { likes := max 0 (currentMetrics.totalLikes - prev.totalLikes)
      dislikes := max 0 (currentMetrics.totalDislikes.getD 0 - prev.totalDislikes)
      comments := max 0 (currentMetrics.totalComments - prev.totalComments)
      views := max 0 (currentMetrics.totalViews - prev.totalViews)
      shares := max 0 (currentMetrics.totalShares.getD 0 - prev.totalShares)
      saves := max 0 (currentMetrics.totalSaves.getD 0 - prev.totalSaves)
      watchTime := max 0 (currentMetrics.totalWatchTime.getD 0 - prev.totalWatchTime)
      impressions := max 0 (currentMetrics.totalImpressions.getD 0 - prev.totalImpressions)
      reach := max 0 (currentMetrics.totalReach.getD 0 - prev.totalReach) }

/-! ## Sparks rates and `calculateSparksFromDelta` (sparks.service)

The `SPARKS_RATES` table of the source, one record per platform.  Note the
negative YouTube dislike rate (`dislike: -0.5`, commented "Negative impact"
in the source). -/

/-- Per-metric sparks rate table for a platform, flattened from
`SPARKS_RATES` (fields unused by `calculateSparksFromDelta`, such as the
subscriber and follower rates, are omitted). -/
def SPARKS_RATES_youtube_like : ℚ := 2
def SPARKS_RATES_youtube_dislike : ℚ := -(1/2)
def SPARKS_RATES_youtube_comment : ℚ := 5
def SPARKS_RATES_youtube_view : ℚ := 1/10
def SPARKS_RATES_youtube_watchHour : ℚ := 10
def SPARKS_RATES_instagram_like : ℚ := 1
def SPARKS_RATES_instagram_comment : ℚ := 3
def SPARKS_RATES_instagram_view : ℚ := 1/20
def SPARKS_RATES_instagram_save : ℚ := 2
def SPARKS_RATES_instagram_share : ℚ := 4
def SPARKS_RATES_twitter_like : ℚ := 1
def SPARKS_RATES_twitter_retweet : ℚ := 3
def SPARKS_RATES_twitter_comment : ℚ := 2
def SPARKS_RATES_twitter_impression : ℚ := 1/100
def SPARKS_RATES_tiktok_like : ℚ := 1
def SPARKS_RATES_tiktok_comment : ℚ := 3
def SPARKS_RATES_tiktok_view : ℚ := 1/50
def SPARKS_RATES_tiktok_share : ℚ := 4
def SPARKS_RATES_spotify_stream : ℚ := 1/2

/-- Embeds `calculateSparksFromDelta(delta, platform)`: lowercases the platform,
branches per known platform and rounds; an unknown platform takes the
default formula `likes*1 + comments*2 + views*0.01`, which the source
returns unrounded. -/
def calculateSparksFromDelta (delta : DeltaMetrics) (platform : String) : ℚ :=
  let platformKey := jsToLower platform
  if platformKey = "youtube" then
    ((jsRound (delta.likes * SPARKS_RATES_youtube_like
      + delta.dislikes * SPARKS_RATES_youtube_dislike
      + delta.comments * SPARKS_RATES_youtube_comment
      + delta.views * SPARKS_RATES_youtube_view
      + delta.watchTime * SPARKS_RATES_youtube_watchHour) : ℤ) : ℚ)
  else if platformKey = "instagram" then
    ((jsRound (delta.likes * SPARKS_RATES_instagram_like
      + delta.comments * SPARKS_RATES_instagram_comment
      + delta.views * SPARKS_RATES_instagram_view
      + delta.saves * SPARKS_RATES_instagram_save
      + delta.shares * SPARKS_RATES_instagram_share) : ℤ) : ℚ)
  else if platformKey = "twitter" then
    ((jsRound (delta.likes * SPARKS_RATES_twitter_like
      + delta.comments * SPARKS_RATES_twitter_comment
      + delta.shares * SPARKS_RATES_twitter_retweet
      + delta.impressions * SPARKS_RATES_twitter_impression) : ℤ) : ℚ)
  else if platformKey = "tiktok" then
    ((jsRound (delta.likes * SPARKS_RATES_tiktok_like
      + delta.comments * SPARKS_RATES_tiktok_comment
      + delta.views * SPARKS_RATES_tiktok_view
      + delta.shares * SPARKS_RATES_tiktok_share) : ℤ) : ℚ)
  else if platformKey = "spotify" then
    ((jsRound (delta.views * SPARKS_RATES_spotify_stream) : ℤ) : ℚ)
  else
    delta.likes * 1 + delta.comments * 2 + delta.views * (1/100)

/-! ## CPointsHistory (backup_new_files/CPointsHistory.ts)

`RawEngagementData` mirrors `IRawEngagementData` (the `accountId` and
`syncTimestamp` fields, unused by the calculations, are omitted).
`ProcessedData` keeps the `engagementQuality` sub-record used by
`calculateCPoints`; the `contentCategories`, `actionableInsights` and
`periodComparison` sub-records, which `organizeEngagementData` fills with
constant placeholders, are omitted. -/

structure RawEngagementData where
  platform : String
  contentCount : ℚ
  totalLikes : ℚ
  totalDislikes : Option ℚ
  totalComments : ℚ
  totalViews : ℚ
  totalShares : Option ℚ
  totalSaves : Option ℚ
  totalWatchTime : Option ℚ
  totalImpressions : Option ℚ
  totalReach : Option ℚ
  followerCount : Option ℚ
  engagementRate : Option ℚ
deriving DecidableEq

structure EngagementQuality where
  authenticityScore : ℚ
  consistencyScore : ℚ
  growthTrend : String
  viralContent : ℚ
deriving DecidableEq

structure ProcessedData where
  engagementQuality : EngagementQuality
deriving DecidableEq

/-- Embeds `organizeEngagementData()` of CPointsHistory.  JS comparisons on the
optional fields (`raw.followerCount > 0`, `raw.engagementRate > 5`) are
false on `undefined`, which `Option.getD 0` reproduces for these positive
thresholds.  The locally computed `avgEngagementPerContent` of the source
is dead code (never read) and is not modelled. -/
def organizeEngagementData (raw : RawEngagementData) : ProcessedData :=
  let totalEngagement := raw.totalLikes + raw.totalComments + raw.totalViews
  let engagementRate :=
    if 0 < raw.followerCount.getD 0 then totalEngagement / raw.followerCount.getD 0 * 100 else 0
  let authenticityScore :=
    min 100 (max 0 (50 + (if 5 < engagementRate then 25 else engagementRate * 5)
      - (if 15 < engagementRate then 25 else 0)))
  let consistencyScore := min 100 (raw.contentCount * 10)
  let growthTrend :=
    if 5 < raw.engagementRate.getD 0 then "increasing"
    else if 2 < raw.engagementRate.getD 0 then "stable"
    else "decreasing"
  { engagementQuality :=
    { authenticityScore := authenticityScore
      consistencyScore := consistencyScore
      growthTrend := growthTrend
      viralContent := 0 } }

/-- The result record of `calculateCPoints` (`ICPointsCalculation`); the
`calculationFormula` display string is omitted. -/
structure CPointsCalculation where
  basePoints : ℤ
  qualityMultiplier : ℚ
  consistencyBonus : ℤ
  growthBonus : ℤ
  platformWeight : ℚ
  finalCPoints : ℤ
deriving DecidableEq

/-- The unrounded base-points sum of `calculateCPoints`. -/
def basePointsOf (raw : RawEngagementData) : ℚ :=
  raw.totalLikes * 1 + raw.totalComments * 3 + raw.totalViews * (1/100)
    + raw.totalShares.getD 0 * 2 + raw.totalSaves.getD 0 * (3/2)
    + raw.followerCount.getD 0 * (1/10)

/-- The `platformWeights` table of `calculateCPoints`;
`platformWeights[raw.platform] || 1.0` falls back to 1.0 on a missing key
(every listed weight is nonzero, so `||` only catches the missing case). -/
def platformWeights (platform : String) : ℚ :=
  if platform = "youtube" then 6/5
  else if platform = "instagram" then 1
  else if platform = "twitter" then 4/5
  else if platform = "tiktok" then 11/10
  else if platform = "spotify" then 13/10
  else if platform = "twitch" then 1
  else 1

/-- Embeds `calculateCPoints()` of CPointsHistory. -/
def calculateCPoints (raw : RawEngagementData) (processed : ProcessedData) :
    CPointsCalculation :=
  let basePoints := basePointsOf raw
  let qualityMultiplier := processed.engagementQuality.authenticityScore / 100
  let consistencyBonus := processed.engagementQuality.consistencyScore / 100 * basePoints * (1/10)
  let growthBonus :=
    if processed.engagementQuality.growthTrend = "increasing" then basePoints * (1/5) else 0
  let platformWeight := platformWeights raw.platform
  let finalCPoints := jsRound (basePoints * qualityMultiplier * platformWeight
    + consistencyBonus + growthBonus)
  { basePoints := jsRound basePoints
    qualityMultiplier := qualityMultiplier
    consistencyBonus := jsRound consistencyBonus
    growthBonus := jsRound growthBonus
    platformWeight := platformWeight
    finalCPoints := finalCPoints }

/-! ## Level progression (sparks.service, `LEVEL_THRESHOLDS` and
`calculateLevelInfo`) -/

/-- The `LEVEL_THRESHOLDS` object as the (level, threshold) entry list that
`Object.entries` iterates in ascending key order. -/
def LEVEL_THRESHOLDS : List (ℕ × ℚ) := [(1, 0), (2, 1000), (3, 5000), (4, 15000), (5, 50000)]

/-- Keyed lookup into `LEVEL_THRESHOLDS` (the source only looks up keys
1 to 5). -/
def levelThreshold (L : ℕ) : ℚ :=
  if L = 2 then 1000
  else if L = 3 then 5000
  else if L = 4 then 15000
  else if L = 5 then 50000
  else 0

/-- The `currentLevel` loop of `calculateLevelInfo`: the last entry whose
threshold the sparks amount reaches, starting from level 1. -/
def currentLevelOf (sparks : ℚ) : ℕ :=
  LEVEL_THRESHOLDS.foldl (fun acc e => if e.2 ≤ sparks then e.1 else acc) 1

def levelNames : List String := ["", "Pulse", "Rhythm", "Harmony", "Melody", "Resonance"]

structure LevelInfo where
  currentLevel : ℕ
  levelName : String
  progress : ℚ
  nextLevelAt : ℚ
deriving DecidableEq

/-- Embeds `calculateLevelInfo(sparks)` of the sparks service. -/
def calculateLevelInfo (sparks : ℚ) : LevelInfo :=
  let currentLevel := currentLevelOf sparks
  let currentThreshold := levelThreshold currentLevel
  let nextLevel := if currentLevel < 5 then currentLevel + 1 else 5
  let nextThreshold := levelThreshold nextLevel
  let progress :=
    if currentLevel < nextLevel
    then (sparks - currentThreshold) / (nextThreshold - currentThreshold) * 100
    else 100
  { currentLevel := currentLevel
    levelName := levelNames.getD currentLevel ""
    progress := min 100 (max 0 progress)
    nextLevelAt := nextThreshold }

/-! ## Beat model (src/models/Beat.ts)

State of a Beat document for the fields the instance methods read or
write.  Timestamps (`new Date()`) are modelled as an explicit `ℕ` clock
value passed to each mutating method.  Identity fields (`beatId`,
`userId`) and the static metadata sub-document, which the methods never
touch, are omitted. -/

inductive ProofType where
  | proofOfPost
  | proofOfHold
  | proofOfUse
  | proofOfSupport
deriving DecidableEq

structure OnChainActions where
  proofOfPost : Bool
  proofOfHold : Bool
  proofOfUse : Bool
  proofOfSupport : Bool
  tsProofOfPost : Option ℕ
  tsProofOfHold : Option ℕ
  tsProofOfUse : Option ℕ
  tsProofOfSupport : Option ℕ
deriving DecidableEq

structure BeatPerformance where
  views : ℚ
  likes : ℚ
  shares : ℚ
  comments : ℚ
  engagement : ℚ
  trending : Bool
  trendingScore : Option ℚ
  lastUpdated : ℕ
deriving DecidableEq

structure BeatState where
  sparksInherited : ℚ
  onchainActions : OnChainActions
  performance : BeatPerformance
  finalValue : ℚ
deriving DecidableEq

/-- Embeds `calculateValue()` of Beat.ts: 10% onchain bonus per proof flag, a
performance bonus of `min(0.2, engagement / 1000)`, rounded and written to
`finalValue` (the method also returns it). -/
def calculateValue (b : BeatState) : BeatState :=
  let baseValue := b.sparksInherited
  let bonusMultiplier : ℚ := 1/10
  let totalBonus :=
    (if b.onchainActions.proofOfPost then bonusMultiplier else 0)
    + (if b.onchainActions.proofOfHold then bonusMultiplier else 0)
    + (if b.onchainActions.proofOfUse then bonusMultiplier else 0)
    + (if b.onchainActions.proofOfSupport then bonusMultiplier else 0)
  let performanceBonus := min (1/5) (b.performance.engagement / 1000)
  { b with finalValue := ((jsRound (baseValue * (1 + totalBonus + performanceBonus)) : ℤ) : ℚ) }

/-- The partial metrics record passed to `updatePerformance`
(`BeatPerformanceUpdate` of the beats service: optional views, likes,
shares, comments). -/
structure BeatPerformanceUpdate where
  views : Option ℚ
  likes : Option ℚ
  shares : Option ℚ
  comments : Option ℚ
deriving DecidableEq

/-- The engagement-score expression of `updatePerformance`:
`(likes*2 + shares*3 + comments*4) / Math.max(views, 1) * 100`. -/
def jsEngagement (likes shares comments views : ℚ) : ℚ :=
  (likes * 2 + shares * 3 + comments * 4) / max views 1 * 100

/-- Embeds `updatePerformance(metrics)` of Beat.ts: `Object.assign` of the present
fields, `lastUpdated` restamped, engagement recomputed, trending recomputed
(threshold 50, trendingScore kept only when trending), then
`calculateValue()`. -/
def updatePerformance (now : ℕ) (metrics : BeatPerformanceUpdate) (b : BeatState) : BeatState :=
  let p0 := b.performance
  let p1 : BeatPerformance :=
    { views := metrics.views.getD p0.views
      likes := metrics.likes.getD p0.likes
      shares := metrics.shares.getD p0.shares
      comments := metrics.comments.getD p0.comments
      engagement := p0.engagement
      trending := p0.trending
      trendingScore := p0.trendingScore
      lastUpdated := now }
  let engagement := jsEngagement p1.likes p1.shares p1.comments p1.views
  let trending := 50 < engagement
  let p2 : BeatPerformance :=
    { p1 with
      engagement := engagement
      trending := trending
      trendingScore := if trending then some engagement else p1.trendingScore }
  calculateValue { b with performance := p2 }

/-- Embeds `addOnChainProof(proofType)` of Beat.ts: unconditionally sets the flag,
stamps `actionTimestamps[proofType]` with the current time, and
recalculates the value. -/
def addOnChainProof (now : ℕ) (proofType : ProofType) (b : BeatState) : BeatState :=
  let oca := b.onchainActions
  let oca2 :=
    match proofType with
    | .proofOfPost => { oca with proofOfPost := true, tsProofOfPost := some now }
    | .proofOfHold => { oca with proofOfHold := true, tsProofOfHold := some now }
    | .proofOfUse => { oca with proofOfUse := true, tsProofOfUse := some now }
    | .proofOfSupport => { oca with proofOfSupport := true, tsProofOfSupport := some now }
  calculateValue { b with onchainActions := oca2 }

/-- A freshly created Beat as built by `createBeat` of the beats service:
zero performance, no proofs, `finalValue: sparksAmount` ("Initial value
equals inherited sparks"). -/
def initBeat (sparksAmount : ℚ) (now : ℕ) : BeatState :=
  { sparksInherited := sparksAmount
    onchainActions :=
      { proofOfPost := false, proofOfHold := false, proofOfUse := false
        proofOfSupport := false, tsProofOfPost := none, tsProofOfHold := none
        tsProofOfUse := none, tsProofOfSupport := none }
    performance :=
      { views := 0, likes := 0, shares := 0, comments := 0, engagement := 0
        trending := false, trendingScore := none, lastUpdated := now }
    finalValue := sparksAmount }

/-- Lift an optional natural-number counter into a metrics field. -/
def natField (o : Option ℕ) : Option ℚ := o.map (fun n => (n : ℚ))

/-- Reachable Beat states: a Beat freshly created by the service (with a
whole number of inherited sparks, as every sparks amount in the pipeline is
`Math.round`ed), followed by any sequence of performance updates with
natural-number platform counters and of onchain-proof additions. -/
inductive Reachable : BeatState → Prop where
  | create (sparksAmount now : ℕ) : Reachable (initBeat (sparksAmount : ℚ) now)
  | update (now : ℕ) (v l s c : Option ℕ) {b : BeatState} : Reachable b →
      Reachable (updatePerformance now ⟨natField v, natField l, natField s, natField c⟩ b)
  | proof (now : ℕ) (p : ProofType) {b : BeatState} : Reachable b →
      Reachable (addOnChainProof now p b)

/-- Invariant carried through `Reachable`: inherited sparks are a whole
non-negative number, the stored counters and engagement are non-negative,
and the final value dominates the inherited sparks. -/
def GoodBeat (b : BeatState) : Prop :=
  (∃ n : ℕ, b.sparksInherited = (n : ℚ)) ∧
  0 ≤ b.performance.views ∧ 0 ≤ b.performance.likes ∧
  0 ≤ b.performance.shares ∧ 0 ≤ b.performance.comments ∧
  0 ≤ b.performance.engagement ∧
  b.sparksInherited ≤ b.finalValue

/-! ## Legacy Beat model (the other Beat schema, with 10/15/20/25% proof
bonuses and peak-value tracking), used by the backup beats service. -/

structure LegacyOnChain where
  proofOfPost : Bool
  proofOfHold : Bool
  proofOfUse : Bool
  proofOfSupport : Bool
  lastUpdated : ℕ
deriving DecidableEq

structure LegacyPerformance where
  initialValue : ℚ
  currentValue : ℚ
  peakValue : ℚ
  engagementGrowth : ℚ
  lastCalculated : ℕ
  trending : Bool
deriving DecidableEq

structure LegacyState where
  sparksInherited : ℚ
  onchainActions : LegacyOnChain
  finalValue : ℚ
  performance : LegacyPerformance
deriving DecidableEq

namespace Legacy

/-- Embeds `calculateValue()` of the legacy Beat schema: per-proof bonuses of
10% / 15% / 20% / 25% of the base value (post / hold / use / support),
summed and added to the base; updates `currentValue`, `peakValue` and
`lastCalculated`, and returns the rounded value. -/
def calculateValue (now : ℕ) (b : LegacyState) : ℚ × LegacyState :=
  let baseValue := b.sparksInherited
  let bonusPost := if b.onchainActions.proofOfPost then baseValue * (1/10) else 0
  let bonusHold := if b.onchainActions.proofOfHold then baseValue * (3/20) else 0
  let bonusUse := if b.onchainActions.proofOfUse then baseValue * (1/5) else 0
  let bonusSupport := if b.onchainActions.proofOfSupport then baseValue * (1/4) else 0
  let totalOnchainBonus := bonusPost + bonusHold + bonusUse + bonusSupport
  let calculatedValue := baseValue + totalOnchainBonus
  let perf :=
    { b.performance with
      currentValue := calculatedValue
      peakValue :=
        if b.performance.peakValue < calculatedValue then calculatedValue
        else b.performance.peakValue
      lastCalculated := now }
  (((jsRound calculatedValue : ℤ) : ℚ), { b with performance := perf })

/-- Embeds `addOnChainProof(proofType)` of the legacy Beat schema: sets the flag,
restamps `lastUpdated`, recomputes `finalValue` (the early return for the
pseudo-key "lastUpdated" is outside `ProofType` and not modelled). -/
def addOnChainProof (now : ℕ) (proofType : ProofType) (b : LegacyState) : LegacyState :=
  let oca := b.onchainActions
  let oca2 :=
    match proofType with
    | .proofOfPost => { oca with proofOfPost := true, lastUpdated := now }
    | .proofOfHold => { oca with proofOfHold := true, lastUpdated := now }
    | .proofOfUse => { oca with proofOfUse := true, lastUpdated := now }
    | .proofOfSupport => { oca with proofOfSupport := true, lastUpdated := now }
  let r := calculateValue now { b with onchainActions := oca2 }
  { r.2 with finalValue := r.1 }

/-- A Beat as built by `createBeat` of the backup beats service (initial,
current and peak value all equal to the inherited sparks) after its
pre-save hook has run `finalValue = calculateValue()`. -/
def newBeat (sparksInherited : ℚ) (now : ℕ) : LegacyState :=
  let b0 : LegacyState :=
    { sparksInherited := sparksInherited
      onchainActions :=
        { proofOfPost := false, proofOfHold := false, proofOfUse := false
          proofOfSupport := false, lastUpdated := now }
      finalValue := 0
      performance :=
        { initialValue := sparksInherited, currentValue := sparksInherited
          peakValue := sparksInherited, engagementGrowth := 0
          lastCalculated := now, trending := false } }
  let r := calculateValue now b0
  { r.2 with finalValue := r.1 }

end Legacy

/-! ## Beats service `createBeat` (backup_new_files/beats.service.ts)

The Mongo collections are modelled as lists; `findOne` as `List.find?`.
Only the fields the duplicate check and the sparks-inheritance computation
read are kept. -/

structure CPointsHistoryRec where
  id : ℕ
  userId : ℕ
  cPointsAwarded : ℚ
deriving DecidableEq

structure BeatRec where
  userId : ℕ
  platform : String
  contentId : String
  sparksInherited : ℚ
deriving DecidableEq

structure BeatsDb where
  beats : List BeatRec
  histories : List CPointsHistoryRec
deriving DecidableEq

structure CreateBeatInput where
  userId : ℕ
  cPointsHistoryId : ℕ
  platform : String
  contentId : String
  sparksInheritance : Option ℚ
deriving DecidableEq

/-- Embeds `createBeat(input)` of the backup beats service: validates that the
cPoints history exists and belongs to the user, computes the inherited
sparks (the given `sparksInheritance` unless JS-falsy, otherwise 60% of the
awarded cPoints, rounded), rejects when a Beat for the same
(userId, platform, contentId) exists, and otherwise appends the new Beat.
The apostrophe of the history-not-found message is elided. -/
def createBeat (db : BeatsDb) (input : CreateBeatInput) : Except String (BeatRec × BeatsDb) :=
  match db.histories.find? (fun h => h.id == input.cPointsHistoryId && h.userId == input.userId) with
  | none => Except.error "CPoints history not found or does not belong to user"
  | some h =>
    let sparksInherited :=
      match input.sparksInheritance with
      | some v => if v = 0 then ((jsRound (h.cPointsAwarded * (3/5)) : ℤ) : ℚ) else v
      | none => ((jsRound (h.cPointsAwarded * (3/5)) : ℤ) : ℚ)
    match db.beats.find? (fun b => b.userId == input.userId && b.platform == input.platform
        && b.contentId == input.contentId) with
    | some _ => Except.error "Beat already exists for this content"
    | none =>
      let beat : BeatRec := ⟨input.userId, input.platform, input.contentId, sparksInherited⟩
      Except.ok (beat, { db with beats := db.beats ++ [beat] })

/-! ## Theorems -/

theorem jsRound_nonneg {q : ℚ} (h : 0 ≤ q) : 0 ≤ jsRound q := by
  unfold jsRound
  rw [Int.le_floor]
  linarith

theorem le_jsRound {n : ℤ} {q : ℚ} (h : (n : ℚ) ≤ q) : n ≤ jsRound q := by
  unfold jsRound
  rw [Int.le_floor]
  linarith

theorem jsRound_intCast (n : ℤ) : jsRound (n : ℚ) = n := by
  unfold jsRound
  rw [Int.floor_eq_iff]
  constructor
  · linarith
  · linarith

/-- C1: `calculateDelta` returns the entire current totals when no previous
snapshot exists (first sync); with a previous snapshot it returns
`max(0, current - previous)` for each metric field, which equals
`current - previous` componentwise whenever every current field is at least
the previous one (decreased fields clamp to 0 by the `max`). -/
theorem calculateDelta_spec :
    (∀ m : PlatformMetrics, calculateDelta m none =
      { likes := m.totalLikes
        dislikes := m.totalDislikes.getD 0
        comments := m.totalComments
        views := m.totalViews
        shares := m.totalShares.getD 0
        saves := m.totalSaves.getD 0
        watchTime := m.totalWatchTime.getD 0
        impressions := m.totalImpressions.getD 0
        reach := m.totalReach.getD 0 }) ∧
    (∀ (m : PlatformMetrics) (s : SnapshotTotals), calculateDelta m (some s) =
      { likes := max 0 (m.totalLikes - s.totalLikes)
        dislikes := max 0 (m.totalDislikes.getD 0 - s.totalDislikes)
        comments := max 0 (m.totalComments - s.totalComments)
        views := max 0 (m.totalViews - s.totalViews)
        shares := max 0 (m.totalShares.getD 0 - s.totalShares)
        saves := max 0 (m.totalSaves.getD 0 - s.totalSaves)
        watchTime := max 0 (m.totalWatchTime.getD 0 - s.totalWatchTime)
        impressions := max 0 (m.totalImpressions.getD 0 - s.totalImpressions)
        reach := max 0 (m.totalReach.getD 0 - s.totalReach) }) ∧
    (∀ (m : PlatformMetrics) (s : SnapshotTotals),
      s.totalLikes ≤ m.totalLikes →
      s.totalDislikes ≤ m.totalDislikes.getD 0 →
      s.totalComments ≤ m.totalComments →
      s.totalViews ≤ m.totalViews →
      s.totalShares ≤ m.totalShares.getD 0 →
      s.totalSaves ≤ m.totalSaves.getD 0 →
      s.totalWatchTime ≤ m.totalWatchTime.getD 0 →
      s.totalImpressions ≤ m.totalImpressions.getD 0 →
      s.totalReach ≤ m.totalReach.getD 0 →
      calculateDelta m (some s) =
      { likes := m.totalLikes - s.totalLikes
        dislikes := m.totalDislikes.getD 0 - s.totalDislikes
        comments := m.totalComments - s.totalComments
        views := m.totalViews - s.totalViews
        shares := m.totalShares.getD 0 - s.totalShares
        saves := m.totalSaves.getD 0 - s.totalSaves
        watchTime := m.totalWatchTime.getD 0 - s.totalWatchTime
        impressions := m.totalImpressions.getD 0 - s.totalImpressions
        reach := m.totalReach.getD 0 - s.totalReach }) := by
  refine ⟨fun m => rfl, fun m s => rfl, fun m s h1 h2 h3 h4 h5 h6 h7 h8 h9 => ?_⟩
  simp only [calculateDelta]
  rw [max_eq_right (by linarith), max_eq_right (by linarith), max_eq_right (by linarith),
    max_eq_right (by linarith), max_eq_right (by linarith), max_eq_right (by linarith),
    max_eq_right (by linarith), max_eq_right (by linarith), max_eq_right (by linarith)]

theorem calculateDelta_spec_witness :
    calculateDelta ⟨10, some 5, 7, 100, some 3, none, some 2, none, some 1⟩
      (some ⟨4, 5, 6, 50, 3, 0, 1, 0, 0⟩) =
      { likes := 6, dislikes := 0, comments := 1, views := 50, shares := 0
        saves := 0, watchTime := 1, impressions := 0, reach := 1 } := by
  have h := calculateDelta_spec.2.2
    ⟨10, some 5, 7, 100, some 3, none, some 2, none, some 1⟩
    ⟨4, 5, 6, 50, 3, 0, 1, 0, 0⟩
    (by decide) (by decide) (by decide) (by decide) (by decide) (by decide)
    (by decide) (by decide) (by decide)
  rw [h]
  simp only [DeltaMetrics.mk.injEq, Option.getD_some, Option.getD_none]
  norm_num

/-- C2 counterexample: the claim that `calculateSparksFromDelta` is
non-negative on every non-negative delta fails on YouTube, whose
`SPARKS_RATES` dislike rate is `-0.5`: a delta of 2 dislikes and nothing
else yields `-1` sparks. -/
theorem calculateSparksFromDelta_neg_on_youtube_dislikes :
    calculateSparksFromDelta ⟨0, 2, 0, 0, 0, 0, 0, 0, 0⟩ "youtube" = -1 ∧
    calculateSparksFromDelta ⟨0, 2, 0, 0, 0, 0, 0, 0, 0⟩ "youtube" < 0 := by
  have e2 : calculateSparksFromDelta ⟨0, 2, 0, 0, 0, 0, 0, 0, 0⟩ "youtube" =
      ((jsRound ((0 * 2 + 2 * (-(1/2)) + 0 * 5 + 0 * (1/10) + 0 * 10 : ℚ)) : ℤ) : ℚ) := rfl
  have e1 : (0 * 2 + 2 * (-(1/2)) + 0 * 5 + 0 * (1/10) + 0 * 10 : ℚ) = ((-1 : ℤ) : ℚ) := by
    norm_num
  rw [e2, e1, jsRound_intCast]
  norm_num

/-- C2 (amended): for every delta with non-negative fields,
`calculateSparksFromDelta` is non-negative provided the dislikes component
is zero whenever the platform lowercases to "youtube" — the only negative
entry in `SPARKS_RATES` is the YouTube dislike rate. -/
theorem calculateSparksFromDelta_nonneg (d : DeltaMetrics) (platform : String)
    (hl : 0 ≤ d.likes) (_hdis : 0 ≤ d.dislikes) (hd : 0 ≤ d.comments) (hv : 0 ≤ d.views)
    (hs : 0 ≤ d.shares) (hsv : 0 ≤ d.saves) (hw : 0 ≤ d.watchTime)
    (hi : 0 ≤ d.impressions) (_hr : 0 ≤ d.reach)
    (hyt : jsToLower platform = "youtube" → d.dislikes = 0) :
    0 ≤ calculateSparksFromDelta d platform := by
  unfold calculateSparksFromDelta
  simp only [SPARKS_RATES_youtube_like, SPARKS_RATES_youtube_dislike,
    SPARKS_RATES_youtube_comment, SPARKS_RATES_youtube_view,
    SPARKS_RATES_youtube_watchHour, SPARKS_RATES_instagram_like,
    SPARKS_RATES_instagram_comment, SPARKS_RATES_instagram_view,
    SPARKS_RATES_instagram_save, SPARKS_RATES_instagram_share,
    SPARKS_RATES_twitter_like, SPARKS_RATES_twitter_retweet,
    SPARKS_RATES_twitter_comment, SPARKS_RATES_twitter_impression,
    SPARKS_RATES_tiktok_like, SPARKS_RATES_tiktok_comment,
    SPARKS_RATES_tiktok_view, SPARKS_RATES_tiktok_share,
    SPARKS_RATES_spotify_stream]
  split_ifs with h1 h2 h3 h4 h5
  · have hd0 := hyt h1
    rw [hd0]
    exact Int.cast_nonneg.mpr (jsRound_nonneg (by linarith))
  · exact Int.cast_nonneg.mpr (jsRound_nonneg (by linarith))
  · exact Int.cast_nonneg.mpr (jsRound_nonneg (by linarith))
  · exact Int.cast_nonneg.mpr (jsRound_nonneg (by linarith))
  · exact Int.cast_nonneg.mpr (jsRound_nonneg (by linarith))
  · linarith

theorem calculateSparksFromDelta_nonneg_witness :
    0 ≤ calculateSparksFromDelta ⟨1, 0, 1, 1, 1, 1, 1, 1, 1⟩ "youtube" :=
  calculateSparksFromDelta_nonneg ⟨1, 0, 1, 1, 1, 1, 1, 1, 1⟩ "youtube"
    (by decide) (by decide) (by decide) (by decide) (by decide) (by decide)
    (by decide) (by decide) (by decide) (fun _ => rfl)

/-- C3: `finalCPoints` is the rounding of
`basePoints * qualityMultiplier * platformWeight + consistencyBonus + growthBonus`,
with `consistencyBonus = (consistencyScore/100) * basePoints * 0.1`,
`growthBonus = basePoints * 0.2` exactly when the growth trend is
"increasing", and the fixed platform weights 1.2 / 1.3 / 0.8 for
youtube / spotify / twitter. -/
theorem calculateCPoints_finalCPoints_formula :
    (∀ (raw : RawEngagementData) (processed : ProcessedData),
      (calculateCPoints raw processed).finalCPoints =
        jsRound (basePointsOf raw * (calculateCPoints raw processed).qualityMultiplier
          * (calculateCPoints raw processed).platformWeight
          + processed.engagementQuality.consistencyScore / 100 * basePointsOf raw * (1/10)
          + (if processed.engagementQuality.growthTrend = "increasing"
             then basePointsOf raw * (1/5) else 0))) ∧
    (∀ raw processed, (calculateCPoints raw processed).platformWeight =
      platformWeights raw.platform) ∧
    platformWeights "youtube" = 6/5 ∧ platformWeights "spotify" = 13/10 ∧
    platformWeights "twitter" = 4/5 :=
  ⟨fun _ _ => rfl, fun _ _ => rfl, rfl, rfl, rfl⟩

/-- C4 counterexample: for a record with one content piece, no engagement
and no followers, `organizeEngagementData` yields authenticity 50 and
consistency 10; `calculateCPoints` then uses qualityMultiplier 0.5, while
the claimed average-of-both-scores formula would give 0.3. -/
theorem calculateCPoints_qualityMultiplier_not_average :
    (organizeEngagementData
      ⟨"youtube", 1, 0, none, 0, 0, none, none, none, none, none, none, none⟩).engagementQuality.authenticityScore = 50 ∧
    (organizeEngagementData
      ⟨"youtube", 1, 0, none, 0, 0, none, none, none, none, none, none, none⟩).engagementQuality.consistencyScore = 10 ∧
    (calculateCPoints
      ⟨"youtube", 1, 0, none, 0, 0, none, none, none, none, none, none, none⟩
      (organizeEngagementData
        ⟨"youtube", 1, 0, none, 0, 0, none, none, none, none, none, none, none⟩)).qualityMultiplier = 1/2 ∧
    ((50 + 10) / 2 / 100 : ℚ) ≠ 1/2 := by
  refine ⟨?_, ?_, ?_, by norm_num⟩ <;>
    norm_num [organizeEngagementData, calculateCPoints, Option.getD]

/-- C4 (amended): the qualityMultiplier used by `calculateCPoints` is the
authenticity score alone divided by 100; the consistency score does not
enter it (it enters only through `consistencyBonus`). -/
theorem calculateCPoints_qualityMultiplier_eq_authenticity :
    ∀ (raw : RawEngagementData) (processed : ProcessedData),
      (calculateCPoints raw processed).qualityMultiplier =
        processed.engagementQuality.authenticityScore / 100 :=
  fun _ _ => rfl

theorem currentLevelOf_eq (s : ℚ) :
    currentLevelOf s =
      if 50000 ≤ s then 5 else if 15000 ≤ s then 4 else if 5000 ≤ s then 3
      else if 1000 ≤ s then 2 else 1 := by
  simp only [currentLevelOf, LEVEL_THRESHOLDS, List.foldl]
  split_ifs <;> rfl

/-- C7: the level loop returns the maximum level `L` in 1..5 with
`sparks ≥ threshold[L]` (for non-negative sparks), the thresholds are
0, 1000, 5000, 15000, 50000, and the level is monotone non-decreasing in
sparks. -/
theorem currentLevel_spec :
    (∀ sparks : ℚ, 0 ≤ sparks →
      1 ≤ currentLevelOf sparks ∧ currentLevelOf sparks ≤ 5 ∧
      levelThreshold (currentLevelOf sparks) ≤ sparks) ∧
    (∀ (sparks : ℚ) (L : ℕ), 0 ≤ sparks → 1 ≤ L → L ≤ 5 →
      levelThreshold L ≤ sparks → L ≤ currentLevelOf sparks) ∧
    (∀ s1 s2 : ℚ, s1 < s2 → currentLevelOf s1 ≤ currentLevelOf s2) ∧
    levelThreshold 1 = 0 ∧ levelThreshold 2 = 1000 ∧ levelThreshold 3 = 5000 ∧
    levelThreshold 4 = 15000 ∧ levelThreshold 5 = 50000 := by
  refine ⟨?_, ?_, ?_, rfl, rfl, rfl, rfl, rfl⟩
  · intro s hs
    rw [currentLevelOf_eq]
    split_ifs <;> refine ⟨by norm_num, by norm_num, ?_⟩ <;>
      · norm_num [levelThreshold]
        linarith
  · intro s L hs h1 h5 hL
    rw [currentLevelOf_eq]
    interval_cases L <;> norm_num [levelThreshold] at hL <;>
      split_ifs <;> first | norm_num | linarith
  · intro s1 s2 h
    rw [currentLevelOf_eq, currentLevelOf_eq]
    split_ifs <;> first | omega | linarith

theorem currentLevel_spec_witness :
    (1 ≤ currentLevelOf 7000 ∧ currentLevelOf 7000 ≤ 5 ∧
      levelThreshold (currentLevelOf 7000) ≤ 7000) ∧
    3 ≤ currentLevelOf 7000 ∧ currentLevelOf 500 ≤ currentLevelOf 7000 :=
  ⟨currentLevel_spec.1 7000 (by norm_num),
   currentLevel_spec.2.1 7000 3 (by norm_num) (by norm_num) (by norm_num)
     (by norm_num [levelThreshold]),
   currentLevel_spec.2.2.1 500 7000 (by norm_num)⟩

theorem jsRound_cast_ge (n : ℕ) (q : ℚ) (h : (n : ℚ) ≤ q) :
    (n : ℚ) ≤ ((jsRound q : ℤ) : ℚ) := by
  have h1 : ((n : ℤ) : ℚ) ≤ q := by push_cast; linarith
  have h2 : (n : ℤ) ≤ jsRound q := le_jsRound h1
  exact_mod_cast h2

theorem goodBeat_calculateValue {b : BeatState} (n : ℕ) (hn : b.sparksInherited = (n : ℚ))
    (hv : 0 ≤ b.performance.views) (hl : 0 ≤ b.performance.likes)
    (hs : 0 ≤ b.performance.shares) (hc : 0 ≤ b.performance.comments)
    (he : 0 ≤ b.performance.engagement) : GoodBeat (calculateValue b) := by
  refine ⟨⟨n, hn⟩, hv, hl, hs, hc, he, ?_⟩
  show b.sparksInherited ≤ ((jsRound (b.sparksInherited * (1
    + ((if b.onchainActions.proofOfPost then (1/10 : ℚ) else 0)
      + (if b.onchainActions.proofOfHold then (1/10 : ℚ) else 0)
      + (if b.onchainActions.proofOfUse then (1/10 : ℚ) else 0)
      + (if b.onchainActions.proofOfSupport then (1/10 : ℚ) else 0))
    + min (1/5 : ℚ) (b.performance.engagement / 1000))) : ℤ) : ℚ)
  rw [hn]
  apply jsRound_cast_ge
  have h1 : (0:ℚ) ≤ (if b.onchainActions.proofOfPost then (1/10 : ℚ) else 0) := by
    split_ifs <;> norm_num
  have h2 : (0:ℚ) ≤ (if b.onchainActions.proofOfHold then (1/10 : ℚ) else 0) := by
    split_ifs <;> norm_num
  have h3 : (0:ℚ) ≤ (if b.onchainActions.proofOfUse then (1/10 : ℚ) else 0) := by
    split_ifs <;> norm_num
  have h4 : (0:ℚ) ≤ (if b.onchainActions.proofOfSupport then (1/10 : ℚ) else 0) := by
    split_ifs <;> norm_num
  have h5 : (0:ℚ) ≤ min (1/5 : ℚ) (b.performance.engagement / 1000) :=
    le_min (by norm_num) (div_nonneg he (by norm_num))
  have h6 : (0:ℚ) ≤ (n : ℚ) := Nat.cast_nonneg n
  nlinarith [mul_nonneg h6 (by linarith :
    (0:ℚ) ≤ ((if b.onchainActions.proofOfPost then (1/10 : ℚ) else 0)
      + (if b.onchainActions.proofOfHold then (1/10 : ℚ) else 0)
      + (if b.onchainActions.proofOfUse then (1/10 : ℚ) else 0)
      + (if b.onchainActions.proofOfSupport then (1/10 : ℚ) else 0))
      + min (1/5 : ℚ) (b.performance.engagement / 1000))]

theorem natField_getD_nonneg (o : Option ℕ) (q : ℚ) (h : 0 ≤ q) :
    0 ≤ (natField o).getD q := by
  cases o with
  | none => exact h
  | some n => simp [natField]

theorem jsEngagement_nonneg {l s c v : ℚ} (hl : 0 ≤ l) (hs : 0 ≤ s) (hc : 0 ≤ c) :
    0 ≤ jsEngagement l s c v := by
  unfold jsEngagement
  have hden : (0:ℚ) ≤ max v 1 := le_trans (by norm_num) (le_max_right v 1)
  have hnum : (0:ℚ) ≤ l * 2 + s * 3 + c * 4 := by linarith
  have := div_nonneg hnum hden
  linarith

theorem reachable_goodBeat : ∀ b : BeatState, Reachable b → GoodBeat b := by
  intro b h
  induction h with
  | create s now =>
    exact ⟨⟨s, rfl⟩, le_refl 0, le_refl 0, le_refl 0, le_refl 0, le_refl 0, le_refl _⟩
  | update now v l s c hb ih =>
    obtain ⟨⟨n, hn⟩, hv, hl, hs, hc, he, hfv⟩ := ih
    exact goodBeat_calculateValue n hn
      (natField_getD_nonneg v _ hv) (natField_getD_nonneg l _ hl)
      (natField_getD_nonneg s _ hs) (natField_getD_nonneg c _ hc)
      (jsEngagement_nonneg (natField_getD_nonneg l _ hl)
        (natField_getD_nonneg s _ hs) (natField_getD_nonneg c _ hc))
  | proof now p hb ih =>
    obtain ⟨⟨n, hn⟩, hv, hl, hs, hc, he, hfv⟩ := ih
    cases p <;> exact goodBeat_calculateValue n hn hv hl hs hc he

/-- C6: for every reachable Beat state (creation, performance updates,
onchain-proof additions) the invariant `finalValue ≥ sparksInherited`
holds. -/
theorem beat_finalValue_ge_sparksInherited (b : BeatState) (h : Reachable b) :
    b.sparksInherited ≤ b.finalValue :=
  (reachable_goodBeat b h).2.2.2.2.2.2

theorem beat_finalValue_ge_sparksInherited_witness :
    (addOnChainProof 5 ProofType.proofOfPost (initBeat ((1000 : ℕ) : ℚ) 0)).sparksInherited ≤
      (addOnChainProof 5 ProofType.proofOfPost (initBeat ((1000 : ℕ) : ℚ) 0)).finalValue :=
  beat_finalValue_ge_sparksInherited _
    (Reachable.proof 5 ProofType.proofOfPost (Reachable.create 1000 0))

/-- C8 counterexample: `addOnChainProof` is not a no-op on an already-true
proof: the second call overwrites the proof timestamp with its own time, so
calling at times 0 then 1 differs from calling once at time 0. -/
theorem addOnChainProof_not_idempotent :
    addOnChainProof 1 ProofType.proofOfPost
        (addOnChainProof 0 ProofType.proofOfPost (initBeat 1000 0)) ≠
      addOnChainProof 0 ProofType.proofOfPost (initBeat 1000 0) := by
  intro hco
  have h2 : some (1 : ℕ) = some (0 : ℕ) :=
    congrArg (fun st => st.onchainActions.tsProofOfPost) hco
  exact absurd h2 (by decide)

/-- C8 (amended): a second `addOnChainProof` call with the same proof type
only re-stamps the timestamp of that proof: calling at times `t1` then `t2`
yields exactly the state of a single call at `t2`; in particular flags and
`finalValue` are unchanged by the repeat, and two calls carrying the same
timestamp collapse to one. -/
theorem addOnChainProof_restamp (b : BeatState) (p : ProofType) (t1 t2 : ℕ) :
    addOnChainProof t2 p (addOnChainProof t1 p b) = addOnChainProof t2 p b := by
  cases p <;> rfl

/-- C10: `updatePerformance` computes the engagement score as
`(likes*2 + shares*3 + comments*4) / max(views, 1) * 100`; the divisor is
always positive (so `views = 0` gives no division by zero), and all-zero
counters give engagement 0. -/
theorem updatePerformance_total_engagement :
    (∀ (b : BeatState) (m : BeatPerformanceUpdate) (now : ℕ),
      (updatePerformance now m b).performance.engagement =
        (m.likes.getD b.performance.likes * 2 + m.shares.getD b.performance.shares * 3
          + m.comments.getD b.performance.comments * 4)
          / max (m.views.getD b.performance.views) 1 * 100) ∧
    (∀ (b : BeatState) (m : BeatPerformanceUpdate),
      (0:ℚ) < max (m.views.getD b.performance.views) 1) ∧
    (∀ (b : BeatState) (m : BeatPerformanceUpdate) (now : ℕ),
      m.views.getD b.performance.views = 0 →
      m.likes.getD b.performance.likes = 0 →
      m.shares.getD b.performance.shares = 0 →
      m.comments.getD b.performance.comments = 0 →
      (updatePerformance now m b).performance.engagement = 0) := by
  refine ⟨fun b m now => rfl,
    fun b m => lt_of_lt_of_le one_pos (le_max_right _ _),
    fun b m now hv hl hs hc => ?_⟩
  have e : (updatePerformance now m b).performance.engagement =
      (m.likes.getD b.performance.likes * 2 + m.shares.getD b.performance.shares * 3
        + m.comments.getD b.performance.comments * 4)
        / max (m.views.getD b.performance.views) 1 * 100 := rfl
  rw [e, hv, hl, hs, hc]
  norm_num

theorem updatePerformance_total_engagement_witness :
    (updatePerformance 1 ⟨some 0, some 0, some 0, some 0⟩ (initBeat 5 0)).performance.engagement
      = 0 :=
  updatePerformance_total_engagement.2.2 (initBeat 5 0) ⟨some 0, some 0, some 0, some 0⟩ 1
    rfl rfl rfl rfl

/-- C5: the spec scenario on the legacy Beat schema: `sparksInherited = 1000`,
proofOfPost then proofOfHold added, no other proofs — `finalValue` becomes
`round(1000 + 1000*0.10 + 1000*0.15) = 1250` (this schema has no
performance bonus term, so zero engagement adds nothing). -/
theorem legacy_beat_scenario_1250 :
    (Legacy.addOnChainProof 2 ProofType.proofOfHold
      (Legacy.addOnChainProof 1 ProofType.proofOfPost (Legacy.newBeat 1000 0))).finalValue
      = 1250 := by
  show ((jsRound ((1000 : ℚ) + ((1000 : ℚ) * (1/10) + (1000 : ℚ) * (3/20) + 0 + 0)) : ℤ) : ℚ)
    = 1250
  have h : ((1000 : ℚ) + ((1000 : ℚ) * (1/10) + (1000 : ℚ) * (3/20) + 0 + 0))
      = ((1250 : ℤ) : ℚ) := by norm_num
  rw [h, jsRound_intCast]
  norm_num

/-- C9: `createBeat` rejects with the duplicate-content error whenever a
Beat already exists for the same (userId, platform, contentId) (given the
validated cPoints history), and after any successful creation, repeating
the identical request fails with that error — so no second Beat for the
key is ever created. -/
theorem createBeat_rejects_duplicate :
    (∀ (db : BeatsDb) (input : CreateBeatInput) (h : CPointsHistoryRec),
      db.histories.find?
        (fun x => x.id == input.cPointsHistoryId && x.userId == input.userId) = some h →
      (db.beats.find? (fun b => b.userId == input.userId && b.platform == input.platform
        && b.contentId == input.contentId)).isSome →
      createBeat db input = Except.error "Beat already exists for this content") ∧
    (∀ (db : BeatsDb) (input : CreateBeatInput) (beat : BeatRec) (db2 : BeatsDb),
      createBeat db input = Except.ok (beat, db2) →
      createBeat db2 input = Except.error "Beat already exists for this content") := by
  constructor
  · intro db input h hh hdup
    obtain ⟨b0, hb0⟩ := Option.isSome_iff_exists.mp hdup
    simp only [createBeat, hh, hb0]
  · intro db input beat db2 hok
    cases hfind : db.histories.find?
        (fun x => x.id == input.cPointsHistoryId && x.userId == input.userId) with
    | none =>
      simp only [createBeat, hfind] at hok
      exact Except.noConfusion hok
    | some h =>
      cases hbf : db.beats.find? (fun b => b.userId == input.userId
          && b.platform == input.platform && b.contentId == input.contentId) with
      | some b0 =>
        simp only [createBeat, hfind, hbf] at hok
        exact Except.noConfusion hok
      | none =>
        simp only [createBeat, hfind, hbf, Except.ok.injEq, Prod.mk.injEq] at hok
        obtain ⟨hbeat, hdb2⟩ := hok
        subst hdb2
        simp only [createBeat, hfind]
        rw [List.find?_append, hbf]
        simp

theorem createBeat_rejects_duplicate_witness :
    createBeat ⟨[⟨7, "youtube", "vid1", 50⟩], [⟨1, 7, 100⟩]⟩
        ⟨7, 1, "youtube", "vid1", some 50⟩ =
      Except.error "Beat already exists for this content" :=
  createBeat_rejects_duplicate.2 ⟨[], [⟨1, 7, 100⟩]⟩ ⟨7, 1, "youtube", "vid1", some 50⟩
    ⟨7, "youtube", "vid1", 50⟩ ⟨[⟨7, "youtube", "vid1", 50⟩], [⟨1, 7, 100⟩]⟩ rfl
